import Mathlib

/-!
Verification of the `logger` package (a structured-logging facade over Go's
`log/slog`) against its natural-language specification.

The embedding translates the package's pure behaviour:
  * the environment resolver (`InitFromEnv`, `getEnv`, `getEnvBool`),
  * the helper functions (`FormatBytes`, `LogError`, `LogAndWrap`,
    `Debug`/`Info`/`Warn`/`Error`).

The process environment is modelled as a total function `String → String`,
matching Go's `os.Getenv`, which returns the empty string for an absent
variable (so absence and the empty value are indistinguishable, exactly as
in the source).  The underlying `log/slog` engine is out of scope for the
repository; a log call is modelled as the record it hands to the engine,
and the engine's write outcome as a boolean that the helpers thread through
but never inspect.
-/

namespace Logger

/-- The process environment, as seen through Go's `os.Getenv`: a total map
from variable names to values, where an absent variable reads as `""`. -/
def Env : Type := String → String

/-- The `Config` record built by the environment resolver
(`Level`, `Format`, `Output`, `AddSource`, `TimeFormat`; the `Timezone`
field is not touched by `InitFromEnv` and is omitted). -/
structure Config where
  Level : String
  Format : String
  Output : String
  AddSource : Bool
  TimeFormat : String
deriving Repr, DecidableEq

/-- `getEnv` from `env.go`: return the variable's value when it is
non-empty, the default otherwise. -/
def getEnv (env : Env) (key defaultValue : String) : String :=
  if env key ≠ "" then env key else defaultValue

/-- `strings.ToLower`, character by character.  (Go lower-cases the full
Unicode range; `Char.toLower` folds the ASCII letters, which is all the
comparison against `"true"` can be sensitive to.) -/
def strToLower (s : String) : String :=
  ⟨s.data.map Char.toLower⟩

/-- `getEnvBool` from `env.go`: the default when the variable is empty,
otherwise `true` iff the value lower-cases to `"true"` or is `"1"`. -/
def getEnvBool (env : Env) (key : String) (defaultValue : Bool) : Bool :=
  let value := env key
  if value = "" then defaultValue
  else (strToLower value = "true" || value = "1")

/-- The `Config` literal built inside `InitFromEnv` in `env.go`. -/
def configFromEnv (env : Env) : Config where
  Level := getEnv env "LOG_LEVEL" "INFO"
  Format := getEnv env "LOG_FORMAT" "color"
  Output := getEnv env "LOG_OUTPUT" "stdout"
  AddSource := getEnvBool env "LOG_ADD_SOURCE" true
  TimeFormat := getEnv env "LOG_TIME_FORMAT" "rfc3339ms"

/-- An initialization failure, as produced by `Init` (validation plus
construction). Its content is irrelevant here. -/
def InitError : Type := String

/-- `InitFromEnv` from `env.go`.  The `Init` function it forwards to
(validate the `Config`, build the handler and sink, install the default
logger) lives outside the available sources, so it is taken as an
arbitrary parameter: every theorem below holds for each possible `Init`. -/
def InitFromEnv (env : Env) (init : Config → Except InitError Unit) :
    Except InitError Unit :=
  init (configFromEnv env)

/-- The spec sentence on boolean variables, taken at its word: a matching
value is true, and "anything else (including absence) is false unless the
default is true", i.e. anything else yields the default. Kept separate
from `getEnvBool` so the two can be compared. -/
def specBoolParse (value : String) (defaultValue : Bool) : Bool :=
  if strToLower value = "true" || value = "1" then true else defaultValue

/-! ## The `log/slog` engine model

`log/slog` is an external collaborator.  A logger value is an opaque
handle; a log call is modelled by the record it hands to the engine
(which logger, at which level, the message, and the flat argument list).
The engine's write outcome does not reach the caller of the helpers, so
it appears only as a boolean stored in the record. -/

/-- An opaque (non-nil) `*slog.Logger` handle. -/
structure SlogLogger where
  id : Nat
deriving Repr, DecidableEq

/-- A `slog` level, as used by the helper functions. -/
inductive SlogLevel where
  | debug
  | info
  | warn
  | error
deriving Repr, DecidableEq

/-- A Go `error` value.  `base` is any pre-existing error with its
`Error()` message; `wrap` is an error produced by `fmt.Errorf` with `%w`,
carrying its own message and the wrapped error. -/
inductive GoError where
  | base (msg : String)
  | wrap (msg : String) (inner : GoError)
deriving Repr, DecidableEq

/-- The Go `Error()` method: the message carried by the error value. -/
def GoError.message : GoError → String
  | .base m => m
  | .wrap m _ => m

/-- The Go `Unwrap()` method: the wrapped error, when there is one. -/
def GoError.unwrap : GoError → Option GoError
  | .base _ => none
  | .wrap _ inner => some inner

/-- `fmt.Errorf("%s: %w", msg, err)`: a wrapping error whose message is
`msg`, a colon and a space, then `err`'s message. -/
def errorfWrap (msg : String) (err : GoError) : GoError :=
  .wrap (msg ++ ": " ++ err.message) err

/-- One element of a variadic `...any` attribute list. -/
inductive GoVal where
  | str (s : String)
  | err (e : GoError)
  | int (n : Int)
deriving Repr, DecidableEq

/-- The record a single log call hands to the engine. -/
structure LogRecord where
  logger : SlogLogger
  level : SlogLevel
  msg : String
  args : List GoVal
  delivered : Bool
deriving Repr, DecidableEq

/-- `logger.Error(msg, args...)` (and its siblings): build the record
for the engine.  `writeOk` is the engine's write outcome, invisible to
the caller. -/
def slogLog (l : SlogLogger) (lvl : SlogLevel) (msg : String)
    (args : List GoVal) (writeOk : Bool) : LogRecord where
  logger := l
  level := lvl
  msg := msg
  args := args
  delivered := writeOk

/-! ## Context values

`LogError` takes `ctx interface{}`.  At runtime the value is either the
nil interface, some value without a `Value(key any) any` method, or a
carrier whose `Value(loggerKey)` may or may not be a usable
`*slog.Logger` (`assoc = none` covers both a missing or foreign-typed
entry and a typed-nil logger, which the source's `logger == nil` check
sends to the default as well). -/

inductive Ctx where
  | nil
  | nonCarrier
  | carrier (assoc : Option SlogLogger)
deriving Repr, DecidableEq

/-- The logger the two type assertions in `LogError` extract from `ctx`,
when they both succeed. -/
def Ctx.lookupLogger : Ctx → Option SlogLogger
  | .carrier assoc => assoc
  | _ => none

/-! ## helpers.go -/

/-- The scaling loop of `FormatBytes`:
`for n := bytes / unit; n >= unit; n /= unit { div *= unit; exp++ }`.
Runs on `Nat` because it is only reached when `bytes ≥ 1024`. -/
def fbLoop (n div exp : Nat) : Nat × Nat :=
  if h : 1024 ≤ n then fbLoop (n / 1024) (div * 1024) (exp + 1)
  else (div, exp)
termination_by n
decreasing_by exact Nat.div_lt_self (by omega) (by omega)

/-- `fmt.Sprintf("%.1f", float64(n)/float64(div))` for `0 < div`:
the quotient rendered with one decimal digit, rounding to the nearest
tenth, ties to even.  (Go formats the `float64` quotient; on every input
reachable in the claims the quotient is exactly representable, so the
exact rational rounding used here agrees with it.) -/
def fmtFixed1 (n div : Nat) : String :=
  let t := n * 10
  let q := t / div
  let r := t % div
  let tenths :=
    if div < 2 * r then q + 1
    else if 2 * r < div then q
    else if q % 2 = 0 then q else q + 1
  toString (tenths / 10) ++ "." ++ toString (tenths % 10)

/-- The unit letters `"KMGTPE"` indexed by `exp`.  For `int64` input the
loop leaves `exp ≤ 5`, so the out-of-range default is unreachable. -/
def kmgtpeChar (exp : Nat) : Char :=
  (['K', 'M', 'G', 'T', 'P', 'E']).getD exp 'K'

/-- `FormatBytes` from `helpers.go`: below 1024, the decimal count with
a `" B"` suffix; otherwise scale by powers of 1024 and render with one
decimal digit and the matching unit letter. -/
def FormatBytes (bytes : Int) : String :=
  if bytes < 1024 then toString bytes ++ " B"
  else
    let b := bytes.toNat
    let (div, exp) := fbLoop (b / 1024) 1024 0
    fmtFixed1 b div ++ " " ++ String.singleton (kmgtpeChar exp) ++ "B"

/-- `LogError` from `helpers.go`: resolve a logger from `ctx`, falling
back to `slog.Default()` (`defaultLogger`) when none is found, log the
message at error level with `("error", err)` prepended to the caller's
attributes, and return `err`.  The result pairs the emitted record with
the returned error. -/
def LogError (ctx : Ctx) (msg : String) (err : GoError)
    (attrs : List GoVal) (defaultLogger : SlogLogger) (writeOk : Bool) :
    LogRecord × GoError :=
  let logger :=
    match ctx.lookupLogger with
    | some l => l
    | none => defaultLogger
  let allAttrs := GoVal.str "error" :: GoVal.err err :: attrs
  (slogLog logger .error msg allAttrs writeOk, err)

/-- `LogAndWrap` from `helpers.go`: log through the package default
(`slog.Error`) with `("error", err)` prepended, then return
`fmt.Errorf("%s: %w", msg, err)`. -/
def LogAndWrap (msg : String) (err : GoError) (attrs : List GoVal)
    (defaultLogger : SlogLogger) (writeOk : Bool) :
    LogRecord × GoError :=
  let allAttrs := GoVal.str "error" :: GoVal.err err :: attrs
  (slogLog defaultLogger .error msg allAttrs writeOk, errorfWrap msg err)

/-! ## Level-keyed passthroughs

`slog.Debug`/`Info`/`Warn`/`Error` log through `slog.Default()` at the
corresponding level; the package-level wrappers in `helpers.go` forward
their arguments to them unchanged. -/

/-- `slog.Debug(msg, args...)`: the engine's package-level call against
its default logger. -/
def slogPkgDebug (d : SlogLogger) (msg : String) (args : List GoVal)
    (writeOk : Bool) : LogRecord :=
  slogLog d .debug msg args writeOk

/-- `slog.Info(msg, args...)`. -/
def slogPkgInfo (d : SlogLogger) (msg : String) (args : List GoVal)
    (writeOk : Bool) : LogRecord :=
  slogLog d .info msg args writeOk

/-- `slog.Warn(msg, args...)`. -/
def slogPkgWarn (d : SlogLogger) (msg : String) (args : List GoVal)
    (writeOk : Bool) : LogRecord :=
  slogLog d .warn msg args writeOk

/-- `slog.Error(msg, args...)`. -/
def slogPkgError (d : SlogLogger) (msg : String) (args : List GoVal)
    (writeOk : Bool) : LogRecord :=
  slogLog d .error msg args writeOk

/-- `Debug` from `helpers.go`. -/
def Debug (d : SlogLogger) (msg : String) (args : List GoVal)
    (writeOk : Bool) : LogRecord :=
  slogPkgDebug d msg args writeOk

/-- `Info` from `helpers.go`. -/
def Info (d : SlogLogger) (msg : String) (args : List GoVal)
    (writeOk : Bool) : LogRecord :=
  slogPkgInfo d msg args writeOk

/-- `Warn` from `helpers.go`. -/
def Warn (d : SlogLogger) (msg : String) (args : List GoVal)
    (writeOk : Bool) : LogRecord :=
  slogPkgWarn d msg args writeOk

/-- `Error` from `helpers.go`. -/
def Error (d : SlogLogger) (msg : String) (args : List GoVal)
    (writeOk : Bool) : LogRecord :=
  slogPkgError d msg args writeOk

/-! ## Concrete environments used as witnesses -/

/-- An environment with `LOG_LEVEL=DEBUG` and every other variable
absent. -/
def envLevelDebug : Env :=
  fun k => if k = "LOG_LEVEL" then "DEBUG" else ""

/-- An environment with `LOG_ADD_SOURCE=TRUE` and every other variable
absent. -/
def envAddSourceTRUE : Env :=
  fun k => if k = "LOG_ADD_SOURCE" then "TRUE" else ""

/-- An environment with `LOG_ADD_SOURCE=yes` and every other variable
absent. -/
def envAddSourceYes : Env :=
  fun k => if k = "LOG_ADD_SOURCE" then "yes" else ""

end Logger

namespace Logger

/-! ## Claims -/

/-- **C1.** In fixed-default mode (`InitFromEnv`), each of the five
variables that reads absent-or-empty gives its field the fixed default
(`Level = "INFO"`, `Format = "color"`, `Output = "stdout"`,
`AddSource = true`, `TimeFormat = "rfc3339ms"`); a variable set non-empty
is taken verbatim into its field (the boolean field, whose type cannot
hold the text verbatim, takes the value parsed from exactly that text,
per C2). -/
theorem initFromEnv_fixed_defaults (env : Env) :
    (env "LOG_LEVEL" = "" → (configFromEnv env).Level = "INFO") ∧
    (env "LOG_LEVEL" ≠ "" → (configFromEnv env).Level = env "LOG_LEVEL") ∧
    (env "LOG_FORMAT" = "" → (configFromEnv env).Format = "color") ∧
    (env "LOG_FORMAT" ≠ "" → (configFromEnv env).Format = env "LOG_FORMAT") ∧
    (env "LOG_OUTPUT" = "" → (configFromEnv env).Output = "stdout") ∧
    (env "LOG_OUTPUT" ≠ "" → (configFromEnv env).Output = env "LOG_OUTPUT") ∧
    (env "LOG_ADD_SOURCE" = "" → (configFromEnv env).AddSource = true) ∧
    (env "LOG_ADD_SOURCE" ≠ "" →
      (configFromEnv env).AddSource =
        (strToLower (env "LOG_ADD_SOURCE") = "true" ||
          env "LOG_ADD_SOURCE" = "1")) ∧
    (env "LOG_TIME_FORMAT" = "" →
      (configFromEnv env).TimeFormat = "rfc3339ms") ∧
    (env "LOG_TIME_FORMAT" ≠ "" →
      (configFromEnv env).TimeFormat = env "LOG_TIME_FORMAT") := by
  refine ⟨?_, ?_, ?_, ?_, ?_, ?_, ?_, ?_, ?_, ?_⟩ <;>
    intro h <;>
    simp [configFromEnv, getEnv, getEnvBool, h]

/-- Witness for C1 at the concrete environment `LOG_LEVEL=DEBUG`, all
other variables absent: the level is taken verbatim and the other four
fields get their fixed defaults. -/
theorem initFromEnv_fixed_defaults_witness :
    (configFromEnv envLevelDebug).Level = "DEBUG" ∧
    (configFromEnv envLevelDebug).Format = "color" ∧
    (configFromEnv envLevelDebug).Output = "stdout" ∧
    (configFromEnv envLevelDebug).AddSource = true ∧
    (configFromEnv envLevelDebug).TimeFormat = "rfc3339ms" := by
  have h := initFromEnv_fixed_defaults envLevelDebug
  exact ⟨h.2.1 (by decide), h.2.2.1 rfl, h.2.2.2.2.1 rfl,
    h.2.2.2.2.2.2.1 rfl, h.2.2.2.2.2.2.2.2.1 rfl⟩

/-- **C2 counterexample.** The claim says a value other than
(case-insensitive) `"true"` or `"1"` "yields false unless the default d
is true".  At value `"yes"` with default `true` the claim therefore
predicts `true` (this reading is `specBoolParse`, which returns the
default there), but `getEnvBool` returns `false`: the default is
consulted only when the variable is absent or empty. -/
theorem getEnvBool_claim_counterexample :
    getEnvBool envAddSourceYes "LOG_ADD_SOURCE" true = false ∧
    specBoolParse "yes" true = true ∧
    envAddSourceYes "LOG_ADD_SOURCE" = "yes" := by
  refine ⟨?_, ?_, ?_⟩ <;> decide

/-- **C2 (amended).** When the variable is absent or empty the parse
yields the default; a non-empty value yields true exactly when it equals
`"true"` case-insensitively or is the literal `"1"`, and false on any
other non-empty value regardless of the default. -/
theorem getEnvBool_amended (env : Env) (key : String) (d : Bool) :
    (env key = "" → getEnvBool env key d = d) ∧
    (env key ≠ "" →
      (getEnvBool env key d = true ↔
        strToLower (env key) = "true" ∨ env key = "1")) := by
  constructor
  · intro h
    simp [getEnvBool, h]
  · intro h
    simp [getEnvBool, h]

/-- Witness for C2 (amended): `LOG_ADD_SOURCE=TRUE` with default `false`
parses to `true`, and `LOG_ADD_SOURCE=yes` with default `true` parses to
`false`. -/
theorem getEnvBool_amended_witness :
    getEnvBool envAddSourceTRUE "LOG_ADD_SOURCE" false = true ∧
    getEnvBool envAddSourceYes "LOG_ADD_SOURCE" true = false := by
  constructor
  · exact ((getEnvBool_amended envAddSourceTRUE "LOG_ADD_SOURCE" false).2
      (by decide)).mpr (Or.inl (by decide))
  · have h := (getEnvBool_amended envAddSourceYes "LOG_ADD_SOURCE" true).2
      (by decide)
    cases hb : getEnvBool envAddSourceYes "LOG_ADD_SOURCE" true
    · rfl
    · exact absurd (h.mp hb) (by decide)

/-- **C3.** `LogError` returns exactly the error it was given, and
`LogAndWrap` returns a wrapped error whose message is `msg ++ ": "`
followed by the original message and which unwraps to the original
error — for every write outcome of the log call. -/
theorem logError_logAndWrap_returns (ctx : Ctx) (msg : String)
    (err : GoError) (attrs : List GoVal) (d : SlogLogger) (writeOk : Bool) :
    (LogError ctx msg err attrs d writeOk).2 = err ∧
    (LogAndWrap msg err attrs d writeOk).2.message =
      msg ++ ": " ++ err.message ∧
    (LogAndWrap msg err attrs d writeOk).2.unwrap = some err := by
  refine ⟨rfl, ?_, ?_⟩ <;> rfl

/-- **C4.** `FormatBytes 0 = "0 B"`, `FormatBytes (1536 * 1024) =
"1.5 MB"` and `FormatBytes 1023 = "1023 B"`. -/
theorem formatBytes_examples :
    FormatBytes 0 = "0 B" ∧
    FormatBytes (1536 * 1024) = "1.5 MB" ∧
    FormatBytes 1023 = "1023 B" := by
  refine ⟨by decide, ?_, by decide⟩
  norm_num
  simp [FormatBytes, fbLoop, fmtFixed1, kmgtpeChar]
  decide

/-- **C5.** `LogError` resolves its logger from the context first: when a
logger is associated with `ctx` that logger receives the record, and
exactly when none is does the record go to the process-wide default; the
message and the attribute list of the record do not depend on which
branch was taken. -/
theorem logError_resolution (ctx : Ctx) (msg : String) (err : GoError)
    (attrs : List GoVal) (d : SlogLogger) (writeOk : Bool) :
    (∀ l, ctx.lookupLogger = some l →
      (LogError ctx msg err attrs d writeOk).1.logger = l) ∧
    (ctx.lookupLogger = none →
      (LogError ctx msg err attrs d writeOk).1.logger = d) ∧
    (LogError ctx msg err attrs d writeOk).1.msg = msg ∧
    (LogError ctx msg err attrs d writeOk).1.args =
      GoVal.str "error" :: GoVal.err err :: attrs := by
  refine ⟨?_, ?_, rfl, rfl⟩
  · intro l hl
    simp [LogError, slogLog, hl]
  · intro hn
    simp [LogError, slogLog, hn]

/-- Witness for C5: with a context carrying logger 7 the record goes to
logger 7, and with a logger-free carrier context it goes to the default
logger 0. -/
theorem logError_resolution_witness :
    (LogError (Ctx.carrier (some ⟨7⟩)) "m" (GoError.base "e") [] ⟨0⟩
        true).1.logger = ⟨7⟩ ∧
    (LogError (Ctx.carrier none) "m" (GoError.base "e") [] ⟨0⟩
        true).1.logger = ⟨0⟩ := by
  constructor
  · exact (logError_resolution (Ctx.carrier (some ⟨7⟩)) "m"
      (GoError.base "e") [] ⟨0⟩ true).1 ⟨7⟩ rfl
  · exact (logError_resolution (Ctx.carrier none) "m"
      (GoError.base "e") [] ⟨0⟩ true).2.1 rfl

/-- **C6.** The package-level `Debug`, `Info`, `Warn` and `Error` are
pure passthroughs: each hands the engine exactly the record of its
`slog` counterpart against the process-wide default logger, at the
corresponding level, with the message and attributes unchanged. -/
theorem level_passthroughs (d : SlogLogger) (msg : String)
    (args : List GoVal) (writeOk : Bool) :
    Debug d msg args writeOk = slogLog d .debug msg args writeOk ∧
    Info d msg args writeOk = slogLog d .info msg args writeOk ∧
    Warn d msg args writeOk = slogLog d .warn msg args writeOk ∧
    Error d msg args writeOk = slogLog d .error msg args writeOk :=
  ⟨rfl, rfl, rfl, rfl⟩

/-- **C7.** `InitFromEnv` builds the `Config` from the environment and
forwards it unchanged to the validation-and-construction step; its
result is exactly that step's result (so any failure surfaces verbatim),
and it is insensitive to everything but that step's verdict on the built
config. -/
theorem initFromEnv_forwards (env : Env)
    (init₁ init₂ : Config → Except InitError Unit) :
    InitFromEnv env init₁ = init₁ (configFromEnv env) ∧
    (∀ e, init₁ (configFromEnv env) = .error e →
      InitFromEnv env init₁ = .error e) ∧
    (init₁ (configFromEnv env) = init₂ (configFromEnv env) →
      InitFromEnv env init₁ = InitFromEnv env init₂) := by
  exact ⟨rfl, fun e he => he, fun h => h⟩

/-- Witness for C7 at the empty environment and an `init` that always
fails with `"boom"`: the failure is returned by `InitFromEnv`. -/
theorem initFromEnv_forwards_witness :
    InitFromEnv (fun _ => "") (fun _ => .error "boom") =
      .error "boom" :=
  (initFromEnv_forwards (fun _ => "") (fun _ => .error "boom")
    (fun _ => .error "boom")).2.1 "boom" rfl

/-- **C8.** `LogError` is total in its `ctx` argument: on the nil
interface, on a value with no `Value` method, and on a carrier with no
usable logger it still produces a record — through the process-wide
default logger — and returns the given error. -/
theorem logError_total_in_ctx (msg : String) (err : GoError)
    (attrs : List GoVal) (d : SlogLogger) (writeOk : Bool) :
    ((LogError Ctx.nil msg err attrs d writeOk).2 = err ∧
      (LogError Ctx.nil msg err attrs d writeOk).1.logger = d) ∧
    ((LogError Ctx.nonCarrier msg err attrs d writeOk).2 = err ∧
      (LogError Ctx.nonCarrier msg err attrs d writeOk).1.logger = d) ∧
    ((LogError (Ctx.carrier none) msg err attrs d writeOk).2 = err ∧
      (LogError (Ctx.carrier none) msg err attrs d writeOk).1.logger
        = d) :=
  ⟨⟨rfl, rfl⟩, ⟨rfl, rfl⟩, ⟨rfl, rfl⟩⟩

/-- **C9.** `LogError` and `LogAndWrap` prepend the pair
`("error", err)` to the caller's attributes: the argument list handed to
the engine is the key `"error"`, then `err`, then the caller's
attributes in their original order. -/
theorem error_pair_prepended (ctx : Ctx) (msg : String) (err : GoError)
    (attrs : List GoVal) (d : SlogLogger) (writeOk : Bool) :
    (LogError ctx msg err attrs d writeOk).1.args =
      GoVal.str "error" :: GoVal.err err :: attrs ∧
    (LogAndWrap msg err attrs d writeOk).1.args =
      GoVal.str "error" :: GoVal.err err :: attrs :=
  ⟨rfl, rfl⟩

/-- **C10.** For every byte count strictly below 1024 — zero and all
negative values included — `FormatBytes` returns the decimal
representation of the count followed by `" B"`, with no unit scaling. -/
theorem formatBytes_small (bytes : Int) (h : bytes < 1024) :
    FormatBytes bytes = toString bytes ++ " B" := by
  simp [FormatBytes, h]

/-- Witness for C10 at the negative count `-5`: it renders as
`"-5 B"`. -/
theorem formatBytes_small_witness :
    FormatBytes (-5) = toString (-5 : Int) ++ " B" :=
  formatBytes_small (-5) (by decide)

end Logger
